import Mathlib

/-!
Shallow embedding of the record query/update surface of the product-enquiry
CRUD service (`App/app.py`, model `product_model/table.py`), together with
proofs about its endpoint handlers.

Each Flask handler is embedded as a pure Lean function from its request
parameters and the current table contents to a result structure that mirrors
the observable outcome: HTTP status code, response payload fields, whether the
store was queried, whether `session.close()` ran in the handler's `finally`
block, and the table contents after the request.
-/

namespace ProductEnquiry

/-- Calendar date, as stored in the `Date` columns of `product_enquiry`. -/
structure Date where
  year : Nat
  month : Nat
  day : Nat
deriving DecidableEq, Repr

/-- Numeric key giving the calendar order of dates. -/
def Date.key (d : Date) : Nat :=
  d.year * 10000 + d.month * 100 + d.day

/-- `a <= b` on dates, the order used by the store for `Date` columns. -/
def Date.le (a b : Date) : Bool :=
  a.key ≤ b.key

/-- `a < b` on dates, the order used by the store for `Date` columns. -/
def Date.lt (a b : Date) : Bool :=
  a.key < b.key

/-- All characters of the group are decimal digits. -/
def allDigits (l : List Char) : Bool :=
  l.all (fun c => c.isDigit)

/-- Value of a digit group (most significant digit first). -/
def digitsVal (l : List Char) : Nat :=
  l.foldl (fun acc c => acc * 10 + (c.toNat - 48)) 0

/-- Split a character list on `-` separators (the splitting both
`strptime`-style parsing and the store's date cast perform on the service's
date formats). -/
def splitDash : List Char → List (List Char)
  | [] => [[]]
  | c :: rest =>
    match splitDash rest with
    | [] => [[c]]
    | h :: t => if c == '-' then [] :: h :: t else (c :: h) :: t

/-- Whether a year is a leap year (Gregorian rule, as used by Python dates). -/
def isLeap (y : Nat) : Bool :=
  (y % 4 == 0 && y % 100 != 0) || (y % 400 == 0)

/-- Number of days in a month of a given year. -/
def daysInMonth (y m : Nat) : Nat :=
  if m == 2 then (if isLeap y then 29 else 28)
  else if m == 4 || m == 6 || m == 9 || m == 11 then 30
  else 31

/-- Build a date from year/month/day digit groups, validating ranges the way
`datetime.strptime` does: the year group is exactly 4 digits, month and day
groups are 1 or 2 digits, the month is 1..12 and the day fits the month. -/
def parseYMDparts (ys ms ds : List Char) : Option Date :=
  if allDigits ys = true ∧ allDigits ms = true ∧ allDigits ds = true
      ∧ ys.length = 4 ∧ 1 ≤ ms.length ∧ ms.length ≤ 2 ∧ 1 ≤ ds.length ∧ ds.length ≤ 2 then
    let y := digitsVal ys
    let m := digitsVal ms
    let d := digitsVal ds
    if 1 ≤ m ∧ m ≤ 12 ∧ 1 ≤ d ∧ d ≤ daysInMonth y m then some ⟨y, m, d⟩ else none
  else none

/-- `datetime.strptime(s, "%d-%m-%Y")` as used by `get_enquiries_by_date`:
`some` on success, `none` when strptime raises `ValueError`. -/
def parseDDMMYYYY (s : String) : Option Date :=
  match splitDash s.toList with
  | [ds, ms, ys] => parseYMDparts ys ms ds
  | _ => none

/-- The store's cast of a textual `YYYY-MM-DD` value to a date, used where the
code compares a raw query-string value against a `Date` column
(`historic-leads`, `del-single-record`): `some` on success, `none` when the
cast fails (which surfaces as a store error). -/
def parseYYYYMMDD (s : String) : Option Date :=
  match splitDash s.toList with
  | [ys, ms, ds] => parseYMDparts ys ms ds
  | _ => none

/-- Python truthiness of an optional query-string / JSON string value:
`None` and the empty string are falsy. -/
def truthy : Option String → Bool
  | none => false
  | some s => !s.toList.isEmpty

/-- Lowercase a string character by character (Python `str.lower()` on the
ASCII values the service handles). -/
def lowerStr (s : String) : String :=
  String.mk (s.toList.map Char.toLower)

/-- `needle` is a prefix of `hay`. -/
def isPre : List Char → List Char → Bool
  | [], _ => true
  | _ :: _, [] => false
  | a :: as, b :: bs => a == b && isPre as bs

/-- `needle` occurs as a contiguous segment of `hay`. -/
def containsSeg (needle : List Char) : List Char → Bool
  | [] => needle.isEmpty
  | c :: t => isPre needle (c :: t) || containsSeg needle t

/-- SQL `value LIKE '%q%'` (case-sensitive substring containment). -/
def likeContains (v q : String) : Bool :=
  containsSeg q.toList v.toList

/-- SQL `value ILIKE '%q%'` / `lower(value) LIKE '%lower(q)%'`
(case-insensitive substring containment). -/
def ilikeContains (v q : String) : Bool :=
  likeContains (lowerStr v) (lowerStr q)

/-- One row of the `product_enquiry` table (`ProductEnquiryForms`). -/
structure Enquiry where
  CustomerName : String
  Gender : String
  Age : Int
  Occupation : String
  MobileNo : Int
  Email : String
  VehicleModel : String
  State : String
  District : String
  City : String
  ExistingVehicle : String
  DealerState : String
  DealerTown : String
  DealerName : String
  BriefAboutEnquiry : String
  ExpectedDateofPurchase : Date
  SentToDealer : Bool
  DealerCode : Int
  LeadId : Int
  CreatedDate : Date
  IsPurchased : Bool
deriving DecidableEq, Repr

/-- One element of the JSON array POSTed to `/post-records`.  Each field is
`none` when the corresponding key is absent from the JSON object (reading an
absent key in the handler raises `KeyError`). -/
structure RawItem where
  CustomerName : Option String
  Gender : Option String
  Age : Option Int
  Occupation : Option String
  MobileNo : Option Int
  Email : Option String
  VehicleModel : Option String
  State : Option String
  District : Option String
  City : Option String
  ExistingVehicle : Option String
  DealerState : Option String
  DealerTown : Option String
  DealerName : Option String
  BriefAboutEnquiry : Option String
  ExpectedDateofPurchase : Option Date
  SentToDealer : Option Bool
  DealerCode : Option Int
  LeadId : Option Int
  CreatedDate : Option Date
  IsPurchased : Option Bool
deriving DecidableEq, Repr

/-- The first key of the item that is missing, in the order the handler's
`ProductEnquiryForms(...)` constructor call reads the keys — the key whose
`KeyError` the handler would raise for this item. -/
def RawItem.firstMissingKey (it : RawItem) : Option String :=
  if it.CustomerName.isNone then some "CustomerName"
  else if it.Gender.isNone then some "Gender"
  else if it.Age.isNone then some "Age"
  else if it.Occupation.isNone then some "Occupation"
  else if it.MobileNo.isNone then some "MobileNo"
  else if it.Email.isNone then some "Email"
  else if it.VehicleModel.isNone then some "VehicleModel"
  else if it.State.isNone then some "State"
  else if it.District.isNone then some "District"
  else if it.City.isNone then some "City"
  else if it.ExistingVehicle.isNone then some "ExistingVehicle"
  else if it.DealerState.isNone then some "DealerState"
  else if it.DealerTown.isNone then some "DealerTown"
  else if it.DealerName.isNone then some "DealerName"
  else if it.BriefAboutEnquiry.isNone then some "BriefAboutEnquiry"
  else if it.ExpectedDateofPurchase.isNone then some "ExpectedDateofPurchase"
  else if it.SentToDealer.isNone then some "SentToDealer"
  else if it.DealerCode.isNone then some "DealerCode"
  else if it.LeadId.isNone then some "LeadId"
  else if it.CreatedDate.isNone then some "CreatedDate"
  else if it.IsPurchased.isNone then some "IsPurchased"
  else none

/-- Build the row the handler constructs from a complete item; `none` when some
key is absent. -/
def RawItem.build (it : RawItem) : Option Enquiry :=
  match it.CustomerName, it.Gender, it.Age, it.Occupation, it.MobileNo, it.Email,
      it.VehicleModel, it.State, it.District, it.City, it.ExistingVehicle,
      it.DealerState, it.DealerTown, it.DealerName, it.BriefAboutEnquiry,
      it.ExpectedDateofPurchase, it.SentToDealer, it.DealerCode, it.LeadId,
      it.CreatedDate, it.IsPurchased with
  | some a, some b, some c, some d, some e, some f, some g, some h, some i,
      some j, some k, some l, some m, some n, some o, some p, some q, some r,
      some s, some t, some u =>
    some ⟨a, b, c, d, e, f, g, h, i, j, k, l, m, n, o, p, q, r, s, t, u⟩
  | _, _, _, _, _, _, _, _, _, _, _, _, _, _, _, _, _, _, _, _, _ => none

/-- First `KeyError` the batch loop would hit: the first missing key of the
first incomplete item, in iteration order. -/
def firstMissing : List RawItem → Option String
  | [] => none
  | it :: rest =>
    match it.firstMissingKey with
    | some k => some k
    | none => firstMissing rest

/-- The two kinds of error detail the `/post-records` handler surfaces in the
`details` field of its JSON error bodies: the text of a `KeyError` (which
carries the missing key and nothing else), or the store's integrity-violation
message for the primary-key constraint on `mobileno`. -/
inductive ErrDetail where
  | keyError (key : String)
  | integrityError
deriving DecidableEq, Repr

/-- Two rows of the batch share a `MobileNo`. -/
def dupMobile : List Enquiry → Bool
  | [] => false
  | r :: rs => rs.any (fun o => o.MobileNo == r.MobileNo) || dupMobile rs

/-- Committing `recs` on top of `db` violates the `mobileno` primary-key
constraint: some new row collides with an existing row, or the batch collides
with itself. -/
def insertViolates (db recs : List Enquiry) : Bool :=
  recs.any (fun r => db.any (fun o => o.MobileNo == r.MobileNo)) || dupMobile recs

/-- Observable outcome of `POST /post-records`. -/
structure PostOutcome where
  status : Nat
  errorDetails : Option ErrDetail
  insertedCount : Option Nat
  sessionClosed : Bool
  finalDb : List Enquiry
deriving DecidableEq, Repr

/-- `POST /post-records` (`post_records` in `App/app.py`): iterate the batch
building one row per item and adding it to the session; a missing key raises
`KeyError`, caught by the generic `except Exception` handler, which rolls the
transaction back and answers 500; `session.commit()` failing on the `mobileno`
primary key raises `SQLAlchemyError`, also rolled back to 500; otherwise every
row is committed and the handler answers 201.  The `finally` block always runs
`session.close()`. -/
def postRecords (items : List RawItem) (db : List Enquiry) : PostOutcome :=
  match firstMissing items with
  | some k =>
    { status := 500, errorDetails := some (ErrDetail.keyError k),
      insertedCount := none, sessionClosed := true, finalDb := db }
  | none =>
    let recs := items.filterMap RawItem.build
    if insertViolates db recs then
      { status := 500, errorDetails := some ErrDetail.integrityError,
        insertedCount := none, sessionClosed := true, finalDb := db }
    else
      { status := 201, errorDetails := none, insertedCount := some recs.length,
        sessionClosed := true, finalDb := db ++ recs }

/-- Observable outcome of `GET /get-enquiries-by-date`. -/
structure ByDateResult where
  status : Nat
  totalCount : Option Nat
  enquiries : Option (List Enquiry)
  queriedStore : Bool
  sessionClosed : Bool
deriving DecidableEq, Repr

/-- Row predicate of `GET /get-enquiries-by-date`:
`CreatedDate >= start AND CreatedDate <= end`. -/
def byDateMatch (s e : Date) (r : Enquiry) : Bool :=
  Date.le s r.CreatedDate && Date.le r.CreatedDate e

/-- `GET /get-enquiries-by-date` (`get_enquiries_by_date`): falsy
`start_date`/`end_date` answer 400; `datetime.strptime(_, "%d-%m-%Y")` raising
`ValueError` is caught by the only `except` clause (`except Exception`) and
answers 500 before any store query; otherwise the matching rows are returned
with status 200 and their count.  The `finally` block only logs — it never
calls `session.close()`. -/
def getEnquiriesByDate (startDate endDate : Option String) (db : List Enquiry) :
    ByDateResult :=
  if !truthy startDate || !truthy endDate then
    { status := 400, totalCount := none, enquiries := none,
      queriedStore := false, sessionClosed := false }
  else
    match parseDDMMYYYY (startDate.getD ""), parseDDMMYYYY (endDate.getD "") with
    | some s, some e =>
      let rows := db.filter (fun r => byDateMatch s e r)
      { status := 200, totalCount := some rows.length, enquiries := some rows,
        queriedStore := true, sessionClosed := false }
    | _, _ =>
      { status := 500, totalCount := none, enquiries := none,
        queriedStore := false, sessionClosed := false }

/-- Observable outcome of `GET /get-enquiries-by-vehicle-model`. -/
structure ByModelResult where
  status : Nat
  totalCount : Option Nat
  enquiries : Option (List Enquiry)
  sessionClosed : Bool
deriving DecidableEq, Repr

/-- Row predicate of `GET /get-enquiries-by-vehicle-model`: with the flag set,
`VehicleModel LIKE '%q%'`; otherwise
`lower(VehicleModel) LIKE '%lower(q)%'`. -/
def byModelMatch (caseSensitive : Bool) (q : String) (r : Enquiry) : Bool :=
  if caseSensitive then likeContains r.VehicleModel q
  else ilikeContains r.VehicleModel q

/-- `GET /get-enquiries-by-vehicle-model` (`get_enquiries_by_vehicle_model`):
`case_sensitive` defaults to `"false"` and is compared lowercased against
`"true"`; a falsy `vehicle_model` answers 400; no matching row answers 404;
otherwise 200 with the rows and their count.  The `finally` block only logs —
it never calls `session.close()`. -/
def getEnquiriesByVehicleModel (vehicleModel caseSensitiveParam : Option String)
    (db : List Enquiry) : ByModelResult :=
  let caseSensitive := lowerStr (caseSensitiveParam.getD "false") == "true"
  if !truthy vehicleModel then
    { status := 400, totalCount := none, enquiries := none, sessionClosed := false }
  else
    let rows := db.filter (fun r => byModelMatch caseSensitive (vehicleModel.getD "") r)
    if rows.isEmpty then
      { status := 404, totalCount := none, enquiries := none, sessionClosed := false }
    else
      { status := 200, totalCount := some rows.length, enquiries := some rows,
        sessionClosed := false }

/-- Observable outcome of `GET /search-enquiries`. -/
structure SearchResult where
  status : Nat
  totalCount : Option Nat
  enquiries : Option (List Enquiry)
  sessionClosed : Bool
deriving DecidableEq, Repr

/-- Row predicate of `GET /search-enquiries`: conjunction of the filters whose
parameter is truthy — `CustomerName ILIKE '%customername%'`, `MobileNo` equal
to the numeric value of `mobileno`, `Email` equal to `email`. -/
def searchMatch (customerName mobileNo email : Option String) (r : Enquiry) : Bool :=
  (!truthy customerName || ilikeContains r.CustomerName (customerName.getD ""))
    && (!truthy mobileNo || (mobileNo.getD "").toInt? == some r.MobileNo)
    && (!truthy email || r.Email == email.getD "")

/-- `GET /search-enquiries` (`search_enquiries`): no parameter is required;
each truthy parameter adds one filter.  A truthy `mobileno` that the store
cannot cast to an integer fails the query, caught by `except Exception` as
500.  No matching row answers 404; otherwise 200 with the rows and their
count.  The `finally` block only logs — it never calls `session.close()`. -/
def searchEnquiries (customerName mobileNo email : Option String)
    (db : List Enquiry) : SearchResult :=
  if truthy mobileNo && ((mobileNo.getD "").toInt?).isNone then
    { status := 500, totalCount := none, enquiries := none, sessionClosed := false }
  else
    let rows := db.filter (fun r => searchMatch customerName mobileNo email r)
    if rows.isEmpty then
      { status := 404, totalCount := none, enquiries := none, sessionClosed := false }
    else
      { status := 200, totalCount := some rows.length, enquiries := some rows,
        sessionClosed := false }

/-- Observable outcome of `GET /get-single-record`.  `record` is the `record`
key of the response body: absent (`none`) on the 404 body, which carries only
a message and the echoed `leadid`. -/
structure SingleResult where
  status : Nat
  totalCount : Option Nat
  record : Option (List Enquiry)
  sessionClosed : Bool
deriving DecidableEq, Repr

/-- `GET /get-single-record` (`get_single_record`): filters on
`LeadId == leadid`, where `leadid` is the query-string value as cast by the
store (`none` models an absent parameter, whose `NULL` comparison matches no
row).  Zero matches answer 404 with no `record` payload; otherwise 200 with
the rows.  The `finally` block always runs `session.close()`. -/
def getSingleRecord (leadid : Option Int) (db : List Enquiry) : SingleResult :=
  let rows := match leadid with
    | none => []
    | some l => db.filter (fun r => r.LeadId == l)
  if rows.length == 0 then
    { status := 404, totalCount := none, record := none, sessionClosed := true }
  else
    { status := 200, totalCount := some rows.length, record := some rows,
      sessionClosed := true }

/-- Observable outcome of `GET /historic-leads`. -/
structure HistoricResult where
  status : Nat
  totalCount : Option Nat
  records : Option (List Enquiry)
  sessionClosed : Bool
deriving DecidableEq, Repr

/-- `GET /historic-leads` (`get_historic_leads`): falsy `startdate`/`enddate`
answer 400; the raw strings are compared against the `CreatedDate` column with
`CreatedDate >= startdate AND CreatedDate <= enddate`, so the store casts them
to dates — a failing cast raises `SQLAlchemyError`, answered 500; otherwise
200 with the rows in the inclusive range and their count.  The `finally` block
always runs `session.close()`. -/
def getHistoricLeads (startDate endDate : Option String) (db : List Enquiry) :
    HistoricResult :=
  if !truthy startDate || !truthy endDate then
    { status := 400, totalCount := none, records := none, sessionClosed := true }
  else
    match parseYYYYMMDD (startDate.getD ""), parseYYYYMMDD (endDate.getD "") with
    | some s, some e =>
      let rows := db.filter (fun r => byDateMatch s e r)
      { status := 200, totalCount := some rows.length, records := some rows,
        sessionClosed := true }
    | _, _ =>
      { status := 500, totalCount := none, records := none, sessionClosed := true }

/-- The update values of `PUT /update-record`: the request-body keys other
than `mobileno`, each `none` when the key is absent from the JSON object.
`MobileNo` itself is excluded exactly as the handler's dictionary
comprehension excludes the `mobileno` key. -/
structure UpdateFields where
  CustomerName : Option String
  Gender : Option String
  Age : Option Int
  Occupation : Option String
  Email : Option String
  VehicleModel : Option String
  State : Option String
  District : Option String
  City : Option String
  ExistingVehicle : Option String
  DealerState : Option String
  DealerTown : Option String
  DealerName : Option String
  BriefAboutEnquiry : Option String
  ExpectedDateofPurchase : Option Date
  SentToDealer : Option Bool
  DealerCode : Option Int
  LeadId : Option Int
  CreatedDate : Option Date
  IsPurchased : Option Bool
deriving DecidableEq, Repr

/-- No update key was supplied (`if not update_fields`). -/
def UpdateFields.isEmpty (u : UpdateFields) : Bool :=
  u.CustomerName.isNone && u.Gender.isNone && u.Age.isNone && u.Occupation.isNone
    && u.Email.isNone && u.VehicleModel.isNone && u.State.isNone
    && u.District.isNone && u.City.isNone && u.ExistingVehicle.isNone
    && u.DealerState.isNone && u.DealerTown.isNone && u.DealerName.isNone
    && u.BriefAboutEnquiry.isNone && u.ExpectedDateofPurchase.isNone
    && u.SentToDealer.isNone && u.DealerCode.isNone && u.LeadId.isNone
    && u.CreatedDate.isNone && u.IsPurchased.isNone

/-- The `UPDATE ... SET` of `PUT /update-record` applied to one row: every
supplied column receives its new value, every other column keeps the row's
value. -/
def applyUpdate (u : UpdateFields) (r : Enquiry) : Enquiry :=
  { r with
    CustomerName := u.CustomerName.getD r.CustomerName
    Gender := u.Gender.getD r.Gender
    Age := u.Age.getD r.Age
    Occupation := u.Occupation.getD r.Occupation
    Email := u.Email.getD r.Email
    VehicleModel := u.VehicleModel.getD r.VehicleModel
    State := u.State.getD r.State
    District := u.District.getD r.District
    City := u.City.getD r.City
    ExistingVehicle := u.ExistingVehicle.getD r.ExistingVehicle
    DealerState := u.DealerState.getD r.DealerState
    DealerTown := u.DealerTown.getD r.DealerTown
    DealerName := u.DealerName.getD r.DealerName
    BriefAboutEnquiry := u.BriefAboutEnquiry.getD r.BriefAboutEnquiry
    ExpectedDateofPurchase := u.ExpectedDateofPurchase.getD r.ExpectedDateofPurchase
    SentToDealer := u.SentToDealer.getD r.SentToDealer
    DealerCode := u.DealerCode.getD r.DealerCode
    LeadId := u.LeadId.getD r.LeadId
    CreatedDate := u.CreatedDate.getD r.CreatedDate
    IsPurchased := u.IsPurchased.getD r.IsPurchased }

/-- Observable outcome of `PUT /update-record`. -/
structure UpdateOutcome where
  status : Nat
  updatedFields : Option UpdateFields
  sessionClosed : Bool
  finalDb : List Enquiry
deriving DecidableEq, Repr

/-- `PUT /update-record` (`update_record`): a missing or Python-falsy
`mobileno` (the JSON number `0` is falsy and taken as missing) answers 400;
an empty set of update keys answers 400; the bulk `UPDATE` on
`MobileNo == mobileno` reporting zero matched rows answers 404 without a
commit, and `session.close()` in `finally` discards the open transaction, so
the table is unchanged; otherwise the update is committed and the handler
answers 200 echoing the updated fields.  (`int(mobileno)` failing answers 400
as well; the embedding takes the already-numeric value.)  The `finally` block
always runs `session.close()`. -/
def updateRecord (mobileno : Option Int) (u : UpdateFields) (db : List Enquiry) :
    UpdateOutcome :=
  match mobileno with
  | none =>
    { status := 400, updatedFields := none, sessionClosed := true, finalDb := db }
  | some m =>
    if m == 0 then
      { status := 400, updatedFields := none, sessionClosed := true, finalDb := db }
    else if u.isEmpty then
      { status := 400, updatedFields := none, sessionClosed := true, finalDb := db }
    else if (db.filter (fun r => r.MobileNo == m)).length == 0 then
      { status := 404, updatedFields := none, sessionClosed := true, finalDb := db }
    else
      { status := 200, updatedFields := some u, sessionClosed := true,
        finalDb := db.map (fun r => if r.MobileNo == m then applyUpdate u r else r) }

/-- Truthiness of the value the `del_record` handler tests in its
missing-parameter guard.  The source tests `if not date:` — `date` there is
the `datetime.date` class imported at the top of the module, not the request
parameter, and a class object is always truthy. -/
def dateClassTruthy : Bool := true

/-- Observable outcome of `DELETE /del-single-record`. -/
structure DelOutcome where
  status : Nat
  deletedCount : Option Nat
  sessionClosed : Bool
  finalDb : List Enquiry
deriving DecidableEq, Repr

/-- `DELETE /del-single-record` (`del_record`): the missing-parameter guard
tests `if not date:` against the imported `datetime.date` class, which is
always truthy, so the 400 branch is unreachable.  With the parameter absent
the filter compares `ExpectedDateofPurchase < NULL`, which matches no row, so
zero rows are deleted and the handler answers 200.  With a parameter present
the store casts it to a date — a failing cast raises `SQLAlchemyError`,
answered 500 — and every row strictly before the cutoff is deleted and
reported.  The `finally` block always runs `session.close()`. -/
def delRecord (expectedDate : Option String) (db : List Enquiry) : DelOutcome :=
  if !dateClassTruthy then
    { status := 400, deletedCount := none, sessionClosed := true, finalDb := db }
  else
    match expectedDate with
    | none =>
      { status := 200, deletedCount := some 0, sessionClosed := true, finalDb := db }
    | some s =>
      match parseYYYYMMDD s with
      | none =>
        { status := 500, deletedCount := none, sessionClosed := true, finalDb := db }
      | some cutoff =>
        let doomed := db.filter (fun r => Date.lt r.ExpectedDateofPurchase cutoff)
        { status := 200, deletedCount := some doomed.length, sessionClosed := true,
          finalDb := db.filter (fun r => !Date.lt r.ExpectedDateofPurchase cutoff) }

/-- A concrete table row used by concrete-input theorems. -/
def sampleEnquiry : Enquiry :=
  { CustomerName := "Asha Rao"
    Gender := "F"
    Age := 30
    Occupation := "Engineer"
    MobileNo := 9000000001
    Email := "asha@example.com"
    VehicleModel := "Thar-4X"
    State := "Telangana"
    District := "Hyderabad"
    City := "Hyderabad"
    ExistingVehicle := "Alto"
    DealerState := "Telangana"
    DealerTown := "Kukatpally"
    DealerName := "AutoHub"
    BriefAboutEnquiry := "Interested in a test drive"
    ExpectedDateofPurchase := ⟨2024, 6, 15⟩
    SentToDealer := false
    DealerCode := 101
    LeadId := 7
    CreatedDate := ⟨2024, 5, 1⟩
    IsPurchased := false }

/-- A batch item with every key present, matching `sampleEnquiry`. -/
def completeItem : RawItem :=
  { CustomerName := some "Asha Rao"
    Gender := some "F"
    Age := some 30
    Occupation := some "Engineer"
    MobileNo := some 9000000001
    Email := some "asha@example.com"
    VehicleModel := some "Thar-4X"
    State := some "Telangana"
    District := some "Hyderabad"
    City := some "Hyderabad"
    ExistingVehicle := some "Alto"
    DealerState := some "Telangana"
    DealerTown := some "Kukatpally"
    DealerName := some "AutoHub"
    BriefAboutEnquiry := some "Interested in a test drive"
    ExpectedDateofPurchase := some ⟨2024, 6, 15⟩
    SentToDealer := some false
    DealerCode := some 101
    LeadId := some 7
    CreatedDate := some ⟨2024, 5, 1⟩
    IsPurchased := some false }

/-- `completeItem` with the `CustomerName` key removed. -/
def itemMissingCustomerName : RawItem :=
  { completeItem with CustomerName := none }

/-- An `UpdateFields` value with no key supplied. -/
def noUpdateFields : UpdateFields :=
  { CustomerName := none, Gender := none, Age := none, Occupation := none
    Email := none, VehicleModel := none, State := none, District := none
    City := none, ExistingVehicle := none, DealerState := none
    DealerTown := none, DealerName := none, BriefAboutEnquiry := none
    ExpectedDateofPurchase := none, SentToDealer := none, DealerCode := none
    LeadId := none, CreatedDate := none, IsPurchased := none }

/-- Specification predicate for the partial update: every column value the
request supplies appears verbatim in the row after the update. -/
def WritesSupplied (u : UpdateFields) (new : Enquiry) : Prop :=
  (∀ v, u.CustomerName = some v → new.CustomerName = v)
    ∧ (∀ v, u.Gender = some v → new.Gender = v)
    ∧ (∀ v, u.Age = some v → new.Age = v)
    ∧ (∀ v, u.Occupation = some v → new.Occupation = v)
    ∧ (∀ v, u.Email = some v → new.Email = v)
    ∧ (∀ v, u.VehicleModel = some v → new.VehicleModel = v)
    ∧ (∀ v, u.State = some v → new.State = v)
    ∧ (∀ v, u.District = some v → new.District = v)
    ∧ (∀ v, u.City = some v → new.City = v)
    ∧ (∀ v, u.ExistingVehicle = some v → new.ExistingVehicle = v)
    ∧ (∀ v, u.DealerState = some v → new.DealerState = v)
    ∧ (∀ v, u.DealerTown = some v → new.DealerTown = v)
    ∧ (∀ v, u.DealerName = some v → new.DealerName = v)
    ∧ (∀ v, u.BriefAboutEnquiry = some v → new.BriefAboutEnquiry = v)
    ∧ (∀ v, u.ExpectedDateofPurchase = some v → new.ExpectedDateofPurchase = v)
    ∧ (∀ v, u.SentToDealer = some v → new.SentToDealer = v)
    ∧ (∀ v, u.DealerCode = some v → new.DealerCode = v)
    ∧ (∀ v, u.LeadId = some v → new.LeadId = v)
    ∧ (∀ v, u.CreatedDate = some v → new.CreatedDate = v)
    ∧ (∀ v, u.IsPurchased = some v → new.IsPurchased = v)

/-- Specification predicate for the partial update: the key column and every
column value the request does not supply is unchanged by the update. -/
def PreservesUnsupplied (u : UpdateFields) (old new : Enquiry) : Prop :=
  new.MobileNo = old.MobileNo
    ∧ (u.CustomerName = none → new.CustomerName = old.CustomerName)
    ∧ (u.Gender = none → new.Gender = old.Gender)
    ∧ (u.Age = none → new.Age = old.Age)
    ∧ (u.Occupation = none → new.Occupation = old.Occupation)
    ∧ (u.Email = none → new.Email = old.Email)
    ∧ (u.VehicleModel = none → new.VehicleModel = old.VehicleModel)
    ∧ (u.State = none → new.State = old.State)
    ∧ (u.District = none → new.District = old.District)
    ∧ (u.City = none → new.City = old.City)
    ∧ (u.ExistingVehicle = none → new.ExistingVehicle = old.ExistingVehicle)
    ∧ (u.DealerState = none → new.DealerState = old.DealerState)
    ∧ (u.DealerTown = none → new.DealerTown = old.DealerTown)
    ∧ (u.DealerName = none → new.DealerName = old.DealerName)
    ∧ (u.BriefAboutEnquiry = none → new.BriefAboutEnquiry = old.BriefAboutEnquiry)
    ∧ (u.ExpectedDateofPurchase = none →
        new.ExpectedDateofPurchase = old.ExpectedDateofPurchase)
    ∧ (u.SentToDealer = none → new.SentToDealer = old.SentToDealer)
    ∧ (u.DealerCode = none → new.DealerCode = old.DealerCode)
    ∧ (u.LeadId = none → new.LeadId = old.LeadId)
    ∧ (u.CreatedDate = none → new.CreatedDate = old.CreatedDate)
    ∧ (u.IsPurchased = none → new.IsPurchased = old.IsPurchased)

/-- An item whose missing-key scan comes up empty builds a row: every key is
present. -/
theorem RawItem.build_isSome (it : RawItem) (h : it.firstMissingKey = none) :
    ∃ r, it.build = some r := by
  obtain ⟨f1, f2, f3, f4, f5, f6, f7, f8, f9, f10, f11, f12, f13, f14, f15, f16, f17, f18, f19, f20, f21⟩ := it
  cases f1 with
  | none => simp [RawItem.firstMissingKey] at h
  | some a1 =>
   cases f2 with
   | none => simp [RawItem.firstMissingKey] at h
   | some a2 =>
    cases f3 with
    | none => simp [RawItem.firstMissingKey] at h
    | some a3 =>
     cases f4 with
     | none => simp [RawItem.firstMissingKey] at h
     | some a4 =>
      cases f5 with
      | none => simp [RawItem.firstMissingKey] at h
      | some a5 =>
       cases f6 with
       | none => simp [RawItem.firstMissingKey] at h
       | some a6 =>
        cases f7 with
        | none => simp [RawItem.firstMissingKey] at h
        | some a7 =>
         cases f8 with
         | none => simp [RawItem.firstMissingKey] at h
         | some a8 =>
          cases f9 with
          | none => simp [RawItem.firstMissingKey] at h
          | some a9 =>
           cases f10 with
           | none => simp [RawItem.firstMissingKey] at h
           | some a10 =>
            cases f11 with
            | none => simp [RawItem.firstMissingKey] at h
            | some a11 =>
             cases f12 with
             | none => simp [RawItem.firstMissingKey] at h
             | some a12 =>
              cases f13 with
              | none => simp [RawItem.firstMissingKey] at h
              | some a13 =>
               cases f14 with
               | none => simp [RawItem.firstMissingKey] at h
               | some a14 =>
                cases f15 with
                | none => simp [RawItem.firstMissingKey] at h
                | some a15 =>
                 cases f16 with
                 | none => simp [RawItem.firstMissingKey] at h
                 | some a16 =>
                  cases f17 with
                  | none => simp [RawItem.firstMissingKey] at h
                  | some a17 =>
                   cases f18 with
                   | none => simp [RawItem.firstMissingKey] at h
                   | some a18 =>
                    cases f19 with
                    | none => simp [RawItem.firstMissingKey] at h
                    | some a19 =>
                     cases f20 with
                     | none => simp [RawItem.firstMissingKey] at h
                     | some a20 =>
                      cases f21 with
                      | none => simp [RawItem.firstMissingKey] at h
                      | some a21 => exact ⟨_, rfl⟩

/-- A batch whose scan finds no missing key builds one row per item. -/
theorem length_filterMap_build (items : List RawItem)
    (h : firstMissing items = none) :
    (items.filterMap RawItem.build).length = items.length := by
  induction items with
  | nil => rfl
  | cons it rest ih =>
    have hit : it.firstMissingKey = none := by
      unfold firstMissing at h
      cases hk : it.firstMissingKey with
      | some k => rw [hk] at h; simp at h
      | none => rfl
    have hrest : firstMissing rest = none := by
      unfold firstMissing at h
      rw [hit] at h
      exact h
    obtain ⟨r, hr⟩ := RawItem.build_isSome it hit
    simp [List.filterMap_cons, hr, ih hrest]

/-- A string `strptime` accepts for `%d-%m-%Y` is nonempty, hence truthy. -/
theorem truthy_of_parseDDMMYYYY (s : String) (d : Date)
    (h : parseDDMMYYYY s = some d) : truthy (some s) = true := by
  cases hl : s.toList with
  | nil =>
    unfold parseDDMMYYYY at h
    rw [hl] at h
    simp [splitDash] at h
  | cons c t => simp [truthy, show s.data = c :: t from hl]

/-- A string the store casts to a date is nonempty, hence truthy. -/
theorem truthy_of_parseYYYYMMDD (s : String) (d : Date)
    (h : parseYYYYMMDD s = some d) : truthy (some s) = true := by
  cases hl : s.toList with
  | nil =>
    unfold parseYYYYMMDD at h
    rw [hl] at h
    simp [splitDash] at h
  | cons c t => simp [truthy, show s.data = c :: t from hl]

/-- The store's date order is reflexive. -/
theorem Date.le_refl (d : Date) : Date.le d d = true := by
  simp [Date.le]

/-- Claim C1 counterexample: a successful request to
`GET /get-enquiries-by-date` returns its HTTP response without the store
session having been closed — the handler's `finally` block only logs, so the
claim that every handler releases the session on every code path is false. -/
theorem c1_counterexample :
    (getEnquiriesByDate (some "01-01-2024") (some "02-01-2024") []).status = 200
    ∧ (getEnquiriesByDate (some "01-01-2024") (some "02-01-2024") []).sessionClosed
        = false := by
  decide

/-- Claim C1 (amended): among the embedded handlers, `post_records`,
`get_single_record`, `get_historic_leads`, `update_record` and `del_record`
close the store session in their `finally` block on every code path before
returning; `get_enquiries_by_date`, `get_enquiries_by_vehicle_model` and
`search_enquiries` never close it — their `finally` blocks only log. -/
theorem c1_session_release_per_handler :
    ∀ (items : List RawItem) (db : List Enquiry)
      (s e vm cs cn mn em dt : Option String) (l mno : Option Int)
      (u : UpdateFields),
      (postRecords items db).sessionClosed = true
      ∧ (getSingleRecord l db).sessionClosed = true
      ∧ (getHistoricLeads s e db).sessionClosed = true
      ∧ (updateRecord mno u db).sessionClosed = true
      ∧ (delRecord dt db).sessionClosed = true
      ∧ (getEnquiriesByDate s e db).sessionClosed = false
      ∧ (getEnquiriesByVehicleModel vm cs db).sessionClosed = false
      ∧ (searchEnquiries cn mn em db).sessionClosed = false := by
  intro items db s e vm cs cn mn em dt l mno u
  refine ⟨?_, ?_, ?_, ?_, ?_, ?_, ?_, ?_⟩
  · cases h : firstMissing items with
    | some k => simp [postRecords, h]
    | none =>
      simp only [postRecords, h]
      split <;> rfl
  · simp only [getSingleRecord]
    split <;> rfl
  · simp only [getHistoricLeads]
    split
    · rfl
    · split <;> rfl
  · cases mno with
    | none => rfl
    | some m =>
      simp only [updateRecord]
      split_ifs <;> rfl
  · cases dt with
    | none => rfl
    | some ds =>
      cases hp : parseYYYYMMDD ds <;> simp [delRecord, dateClassTruthy, hp]
  · simp only [getEnquiriesByDate]
    split
    · rfl
    · split <;> rfl
  · simp only [getEnquiriesByVehicleModel]
    split
    · rfl
    · split <;> rfl
  · simp only [searchEnquiries]
    split
    · rfl
    · split <;> rfl

/-- Claim C2: the batch insert of `POST /post-records` is all-or-nothing — on
any failure (missing key on any item, or a `mobileno` primary-key violation)
the handler answers 500 and the table is exactly what it was, and on success
it answers 201 with the whole batch appended to the table and the count equal
to the batch length. -/
theorem c2_post_records_atomic (items : List RawItem) (db : List Enquiry) :
    ((postRecords items db).status = 500 ∧ (postRecords items db).finalDb = db)
    ∨ ((postRecords items db).status = 201
        ∧ (postRecords items db).finalDb = db ++ items.filterMap RawItem.build
        ∧ (postRecords items db).insertedCount = some items.length) := by
  cases h : firstMissing items with
  | some k => exact Or.inl (by simp [postRecords, h])
  | none =>
    by_cases hv : insertViolates db (items.filterMap RawItem.build) = true
    · exact Or.inl (by simp [postRecords, h, hv])
    · exact Or.inr (by simp [postRecords, h, hv, length_filterMap_build items h])

/-- Claim C3 counterexample: a batch whose only item lacks the `CustomerName`
key is answered with HTTP 500 (the `KeyError` falls into the generic
`except Exception` handler), not with the HTTP 400 the claim states. -/
theorem c3_counterexample :
    firstMissing [itemMissingCustomerName] = some "CustomerName"
    ∧ (postRecords [itemMissingCustomerName] []).status ≠ 400
    ∧ (postRecords [itemMissingCustomerName] []).status = 500 := by
  decide

/-- Claim C3 (amended): a batch in which some item lacks a required key is
answered with HTTP 500 whose error details carry the `KeyError` text naming
the absent key (the first missing key of the first incomplete item); the item
index is not reported; and no row of the batch is persisted. -/
theorem c3_missing_key_rolls_back_with_500 (items : List RawItem)
    (db : List Enquiry) (k : String) (h : firstMissing items = some k) :
    (postRecords items db).status = 500
    ∧ (postRecords items db).errorDetails = some (ErrDetail.keyError k)
    ∧ (postRecords items db).finalDb = db := by
  simp [postRecords, h]

/-- Witness for the amended claim C3 at a concrete batch and table. -/
theorem c3_missing_key_rolls_back_with_500_witness :
    firstMissing [itemMissingCustomerName] = some "CustomerName"
    ∧ ((postRecords [itemMissingCustomerName] [sampleEnquiry]).status = 500
        ∧ (postRecords [itemMissingCustomerName] [sampleEnquiry]).errorDetails
            = some (ErrDetail.keyError "CustomerName")
        ∧ (postRecords [itemMissingCustomerName] [sampleEnquiry]).finalDb
            = [sampleEnquiry]) :=
  ⟨by decide,
   c3_missing_key_rolls_back_with_500 [itemMissingCustomerName] [sampleEnquiry]
     "CustomerName" (by decide)⟩

/-- Claim C4 counterexample: `GET /get-enquiries-by-date` with a `start_date`
that `%d-%m-%Y` cannot parse answers HTTP 500, not the HTTP 400 the claim
states (the `ValueError` is caught by the generic `except Exception`
handler); no store query is executed. -/
theorem c4_counterexample :
    parseDDMMYYYY "2024-01-01" = none
    ∧ (getEnquiriesByDate (some "2024-01-01") (some "01-01-2024") []).status ≠ 400
    ∧ (getEnquiriesByDate (some "2024-01-01") (some "01-01-2024") []).status = 500
    ∧ (getEnquiriesByDate (some "2024-01-01") (some "01-01-2024") []).queriedStore
        = false := by
  decide

/-- Claim C4 (amended): a request to `GET /get-enquiries-by-date` whose
`start_date` or `end_date` is present (truthy) but not parseable as
`DD-MM-YYYY` is answered with HTTP 500, and no store query is executed. -/
theorem c4_invalid_date_500_no_query (s e : String) (db : List Enquiry)
    (hs : truthy (some s) = true) (he : truthy (some e) = true)
    (hbad : parseDDMMYYYY s = none ∨ parseDDMMYYYY e = none) :
    (getEnquiriesByDate (some s) (some e) db).status = 500
    ∧ (getEnquiriesByDate (some s) (some e) db).queriedStore = false := by
  unfold getEnquiriesByDate
  rw [if_neg (by simp [hs, he])]
  simp only [Option.getD_some]
  rcases hbad with hb | hb
  · cases hpe : parseDDMMYYYY e <;> simp [hb, hpe]
  · cases hps : parseDDMMYYYY s <;> simp [hps, hb]

/-- Witness for the amended claim C4 at a concrete request. -/
theorem c4_invalid_date_500_no_query_witness :
    (truthy (some "2024-01-01") = true
      ∧ truthy (some "01-01-2024") = true
      ∧ parseDDMMYYYY "2024-01-01" = none)
    ∧ ((getEnquiriesByDate (some "2024-01-01") (some "01-01-2024") []).status = 500
        ∧ (getEnquiriesByDate (some "2024-01-01") (some "01-01-2024") []).queriedStore
            = false) :=
  ⟨⟨by decide, by decide, by decide⟩,
   c4_invalid_date_500_no_query "2024-01-01" "01-01-2024" []
     (by decide) (by decide) (Or.inl (by decide))⟩

/-- Claim C5 (code bug): with `expecteddateofpurchase` absent the handler
answers HTTP 200 with a deleted count of 0 and an unchanged table, instead of
the documented HTTP 400 — the guard `if not date:` tests the imported
`datetime.date` class (always truthy), so the missing-parameter branch whose
error message the handler carries is unreachable. -/
theorem c5_del_record_missing_param_bug (db : List Enquiry) :
    dateClassTruthy = true
    ∧ (delRecord none db).status ≠ 400
    ∧ (delRecord none db).status = 200
    ∧ (delRecord none db).deletedCount = some 0
    ∧ (delRecord none db).finalDb = db :=
  ⟨rfl, by simp [delRecord, dateClassTruthy], rfl, rfl, rfl⟩

/-- Claim C6: the empty-result behavior is per-endpoint —
`GET /get-single-record` with a `leadid` matching no row answers 404 with no
`record` payload; `GET /search-enquiries` whose filters match no row answers
404; `GET /get-enquiries-by-date` whose date range matches no row answers 200
with a total count of 0. -/
theorem c6_empty_result_contracts :
    (∀ (l : Int) (db : List Enquiry), (∀ r ∈ db, ¬ r.LeadId = l) →
        (getSingleRecord (some l) db).status = 404
        ∧ (getSingleRecord (some l) db).record = none)
    ∧ (∀ (cn mn em : Option String) (db : List Enquiry),
        (truthy mn && ((mn.getD "").toInt?).isNone) = false →
        (∀ r ∈ db, searchMatch cn mn em r = false) →
        (searchEnquiries cn mn em db).status = 404
        ∧ (searchEnquiries cn mn em db).enquiries = none)
    ∧ (∀ (s e : String) (sd ed : Date) (db : List Enquiry),
        parseDDMMYYYY s = some sd → parseDDMMYYYY e = some ed →
        (∀ r ∈ db, byDateMatch sd ed r = false) →
        (getEnquiriesByDate (some s) (some e) db).status = 200
        ∧ (getEnquiriesByDate (some s) (some e) db).totalCount = some 0) := by
  refine ⟨?_, ?_, ?_⟩
  · intro l db h
    have hf : db.filter (fun r => r.LeadId == l) = [] := by
      rw [List.filter_eq_nil_iff]
      intro a ha
      simpa using h a ha
    simp [getSingleRecord, hf]
  · intro cn mn em db hcast h
    have hf : db.filter (fun r => searchMatch cn mn em r) = [] := by
      rw [List.filter_eq_nil_iff]
      intro a ha
      simp [h a ha]
    simp [searchEnquiries, hcast, hf]
  · intro s e sd ed db hps hpe h
    have hts := truthy_of_parseDDMMYYYY s sd hps
    have hte := truthy_of_parseDDMMYYYY e ed hpe
    have hf : db.filter (fun r => byDateMatch sd ed r) = [] := by
      rw [List.filter_eq_nil_iff]
      intro a ha
      simp [h a ha]
    unfold getEnquiriesByDate
    rw [if_neg (by simp [hts, hte])]
    simp only [Option.getD_some]
    rw [hps, hpe]
    simp [hf]

/-- Witness for claim C6 at concrete no-match requests against a one-row
table. -/
theorem c6_empty_result_contracts_witness :
    ((getSingleRecord (some 999999) [sampleEnquiry]).status = 404
      ∧ (getSingleRecord (some 999999) [sampleEnquiry]).record = none)
    ∧ ((searchEnquiries (some "zz") none none [sampleEnquiry]).status = 404
      ∧ (searchEnquiries (some "zz") none none [sampleEnquiry]).enquiries = none)
    ∧ ((getEnquiriesByDate (some "01-01-2020") (some "02-01-2020")
          [sampleEnquiry]).status = 200
      ∧ (getEnquiriesByDate (some "01-01-2020") (some "02-01-2020")
          [sampleEnquiry]).totalCount = some 0) :=
  ⟨c6_empty_result_contracts.1 999999 [sampleEnquiry] (by decide),
   c6_empty_result_contracts.2.1 (some "zz") none none [sampleEnquiry]
     (by decide) (by decide),
   c6_empty_result_contracts.2.2 "01-01-2020" "02-01-2020" ⟨2020, 1, 1⟩
     ⟨2020, 1, 2⟩ [sampleEnquiry] (by decide) (by decide) (by decide)⟩

/-- Claim C7: a successful `PUT /update-record` writes exactly the supplied
fields of every row keyed by the given `mobileno`; every unsupplied field of
such a row, and every row with a different `mobileno`, is unchanged. -/
theorem c7_update_partial_frame (m : Int) (u : UpdateFields)
    (db : List Enquiry) (h : (updateRecord (some m) u db).status = 200) :
    (updateRecord (some m) u db).finalDb
        = db.map (fun r => if r.MobileNo == m then applyUpdate u r else r)
    ∧ (∀ r : Enquiry, (r.MobileNo == m) = false →
        (if r.MobileNo == m then applyUpdate u r else r) = r)
    ∧ (∀ r : Enquiry, WritesSupplied u (applyUpdate u r))
    ∧ (∀ r : Enquiry, PreservesUnsupplied u r (applyUpdate u r)) := by
  refine ⟨?_, ?_, ?_, ?_⟩
  · simp only [updateRecord] at h ⊢
    by_cases h1 : (m == 0) = true
    · rw [if_pos h1] at h
      simp at h
    · rw [if_neg h1] at h ⊢
      by_cases h2 : u.isEmpty = true
      · rw [if_pos h2] at h
        simp at h
      · rw [if_neg h2] at h ⊢
        by_cases h3 : ((db.filter (fun r => r.MobileNo == m)).length == 0) = true
        · rw [if_pos h3] at h
          simp at h
        · rw [if_neg h3]
  · intro r hr
    simp [hr]
  · intro r
    unfold WritesSupplied
    refine ⟨?_, ?_, ?_, ?_, ?_, ?_, ?_, ?_, ?_, ?_, ?_, ?_, ?_, ?_, ?_, ?_, ?_,
      ?_, ?_, ?_⟩ <;> (intro v hv; simp [applyUpdate, hv])
  · intro r
    unfold PreservesUnsupplied
    refine ⟨rfl, ?_, ?_, ?_, ?_, ?_, ?_, ?_, ?_, ?_, ?_, ?_, ?_, ?_, ?_, ?_, ?_,
      ?_, ?_, ?_, ?_⟩ <;> (intro hv; simp [applyUpdate, hv])

/-- The update payload used by concrete-input theorems: only
`BriefAboutEnquiry` is supplied. -/
def sampleUpdate : UpdateFields :=
  { noUpdateFields with BriefAboutEnquiry := some "Ready to purchase" }

/-- Witness for claim C7 at a concrete successful update of the sample row. -/
theorem c7_update_partial_frame_witness :
    (updateRecord (some 9000000001) sampleUpdate [sampleEnquiry]).status = 200
    ∧ ((updateRecord (some 9000000001) sampleUpdate [sampleEnquiry]).finalDb
          = [sampleEnquiry].map
              (fun r => if r.MobileNo == 9000000001 then applyUpdate sampleUpdate r else r)
        ∧ (∀ r : Enquiry, (r.MobileNo == 9000000001) = false →
            (if r.MobileNo == 9000000001 then applyUpdate sampleUpdate r else r) = r)
        ∧ (∀ r : Enquiry, WritesSupplied sampleUpdate (applyUpdate sampleUpdate r))
        ∧ (∀ r : Enquiry,
            PreservesUnsupplied sampleUpdate r (applyUpdate sampleUpdate r))) :=
  ⟨by decide,
   c7_update_partial_frame 9000000001 sampleUpdate [sampleEnquiry] (by decide)⟩

/-- Claim C8 counterexample: with an inverted range — `startdate` after
`enddate` — the row whose `CreatedDate` equals `startdate` is not in the
result set of `GET /historic-leads`, so the claim as stated (which quantifies
over every range) is false. -/
theorem c8_counterexample :
    parseYYYYMMDD "2024-05-01" = some ⟨2024, 5, 1⟩
    ∧ parseYYYYMMDD "2024-01-01" = some ⟨2024, 1, 1⟩
    ∧ sampleEnquiry.CreatedDate = ⟨2024, 5, 1⟩
    ∧ (getHistoricLeads (some "2024-05-01") (some "2024-01-01")
        [sampleEnquiry]).records = some [] := by
  decide

/-- Claim C8 (amended): for every range with `startdate <= enddate`, the date
range of `GET /historic-leads` is inclusive at both ends — every row whose
`CreatedDate` equals either bound is in the result set. -/
theorem c8_historic_leads_inclusive (s e : String) (sd ed : Date)
    (db : List Enquiry) (r : Enquiry)
    (hps : parseYYYYMMDD s = some sd) (hpe : parseYYYYMMDD e = some ed)
    (hle : Date.le sd ed = true) (hr : r ∈ db)
    (hcd : r.CreatedDate = sd ∨ r.CreatedDate = ed) :
    ∃ rows, (getHistoricLeads (some s) (some e) db).records = some rows
      ∧ r ∈ rows := by
  have hts := truthy_of_parseYYYYMMDD s sd hps
  have hte := truthy_of_parseYYYYMMDD e ed hpe
  unfold getHistoricLeads
  rw [if_neg (by simp [hts, hte])]
  simp only [Option.getD_some]
  rw [hps, hpe]
  refine ⟨_, rfl, ?_⟩
  rw [List.mem_filter]
  refine ⟨hr, ?_⟩
  rcases hcd with hcd | hcd <;> simp [byDateMatch, hcd, Date.le_refl, hle]

/-- Witness for the amended claim C8: the sample row sits exactly on the lower
bound of a well-ordered range and is returned. -/
theorem c8_historic_leads_inclusive_witness :
    (parseYYYYMMDD "2024-05-01" = some ⟨2024, 5, 1⟩
      ∧ parseYYYYMMDD "2024-06-15" = some ⟨2024, 6, 15⟩
      ∧ Date.le ⟨2024, 5, 1⟩ ⟨2024, 6, 15⟩ = true
      ∧ sampleEnquiry ∈ [sampleEnquiry]
      ∧ sampleEnquiry.CreatedDate = ⟨2024, 5, 1⟩)
    ∧ ∃ rows, (getHistoricLeads (some "2024-05-01") (some "2024-06-15")
        [sampleEnquiry]).records = some rows ∧ sampleEnquiry ∈ rows :=
  ⟨⟨by decide, by decide, by decide, by decide, by decide⟩,
   c8_historic_leads_inclusive "2024-05-01" "2024-06-15" ⟨2024, 5, 1⟩
     ⟨2024, 6, 15⟩ [sampleEnquiry] sampleEnquiry (by decide) (by decide)
     (by decide) (by decide) (Or.inl (by decide))⟩

/-- Claim C9: `GET /get-enquiries-by-vehicle-model` matches `VehicleModel` by
substring, case sensitivity controlled by the `case_sensitive` flag with an
absent flag equivalent to `false`: the query `thar` with `case_sensitive=false`
matches the stored `Thar-4X` (status 200, the row returned), and with
`case_sensitive=true` it does not (status 404, no rows). -/
theorem c9_vehicle_model_case_flag :
    (∀ (vm : Option String) (db : List Enquiry),
        getEnquiriesByVehicleModel vm none db
          = getEnquiriesByVehicleModel vm (some "false") db)
    ∧ (getEnquiriesByVehicleModel (some "thar") (some "false")
        [sampleEnquiry]).status = 200
    ∧ (getEnquiriesByVehicleModel (some "thar") (some "false")
        [sampleEnquiry]).enquiries = some [sampleEnquiry]
    ∧ (getEnquiriesByVehicleModel (some "thar") (some "true")
        [sampleEnquiry]).status = 404
    ∧ (getEnquiriesByVehicleModel (some "thar") (some "true")
        [sampleEnquiry]).enquiries = none :=
  ⟨fun vm db => rfl, by decide, by decide, by decide, by decide⟩

/-- Claim C10: `GET /search-enquiries` requires no parameter — with none of
`customername`, `mobileno`, `email` supplied no filter is applied, so a
non-empty table is answered 200 with every row (and the full count), and an
empty table is answered 404. -/
theorem c10_search_no_required_params (db : List Enquiry) :
    (db = [] → (searchEnquiries none none none db).status = 404)
    ∧ (db ≠ [] →
        (searchEnquiries none none none db).status = 200
        ∧ (searchEnquiries none none none db).enquiries = some db
        ∧ (searchEnquiries none none none db).totalCount = some db.length) := by
  have hfilter : db.filter (fun r => searchMatch none none none r) = db := by
    simp [searchMatch, truthy]
  constructor
  · intro h
    subst h
    decide
  · intro h
    cases db with
    | nil => exact absurd rfl h
    | cons a t =>
      unfold searchEnquiries
      rw [if_neg (by simp [truthy])]
      simp [hfilter]

/-- Witness for claim C10 at a one-row table with no parameters supplied. -/
theorem c10_search_no_required_params_witness :
    [sampleEnquiry] ≠ ([] : List Enquiry)
    ∧ ((searchEnquiries none none none [sampleEnquiry]).status = 200
        ∧ (searchEnquiries none none none [sampleEnquiry]).enquiries
            = some [sampleEnquiry]
        ∧ (searchEnquiries none none none [sampleEnquiry]).totalCount = some 1) :=
  ⟨by decide, (c10_search_no_required_params [sampleEnquiry]).2 (by decide)⟩

end ProductEnquiry
